import Mathlib

/-!
Verification development for the scan-orchestration backend
(`orchestration-backend/api/tasks.py`).

The Python functions `passive_scan`, `active_scan`, `orchestrate_scan` and
the SpiderFoot job-status poller are shallowly embedded as executable Lean
definitions.  Time is modelled in whole seconds (`Nat`); external tools and
HTTP endpoints are modelled by explicit outcome/script parameters, so each
run of an embedded function is a deterministic function of its inputs.
-/

namespace BrandMonitor

/-! ## String helpers

Kernel-computable counterparts of the Python string operations used by the
embedded functions (`.lower()`, `.strip()`, `.split('.')`, `int(...)`,
`.endswith(...)`), written by structural recursion on the character list so
that concrete runs reduce by `decide`/`rfl`. -/

/-- Python `.lower()` (ASCII case folding suffices for the inputs used). -/
def lowerStr (s : String) : String := ⟨s.data.map Char.toLower⟩

/-- Split a character list at every occurrence of `c` (Python `.split(c)`). -/
def splitOnChar (c : Char) : List Char → List (List Char)
  | [] => [[]]
  | x :: xs =>
    if x = c then [] :: splitOnChar c xs
    else
      match splitOnChar c xs with
      | [] => [[x]]
      | g :: gs => (x :: g) :: gs

/-- Python `ip.split('.')`. -/
def splitDots (s : String) : List String :=
  (splitOnChar '.' s.data).map String.mk

/-- Python `int(p)` on a non-negative decimal literal: `none` unless the
string is non-empty and all digits (the embedded code catches `ValueError`
where this returns `none`). -/
def strToNatQ (s : String) : Option Nat :=
  if s.data = [] ∨ s.data.any (fun c => ¬ c.isDigit) then none
  else some (s.data.foldl (fun n c => 10 * n + (c.toNat - 48)) 0)

/-- Strip leading and trailing whitespace (Python `.strip()`). -/
def trimStr (s : String) : String :=
  ⟨((s.data.dropWhile Char.isWhitespace).reverse.dropWhile Char.isWhitespace).reverse⟩

/-- Boolean list-prefix test, structural. -/
def prefixOfB : List Char → List Char → Bool
  | [], _ => true
  | _ :: _, [] => false
  | a :: as, b :: bs => a = b && prefixOfB as bs

/-- Python `s.endswith(p)`. -/
def strEndsWith (s p : String) : Bool :=
  prefixOfB p.data.reverse s.data.reverse

/-! ## CDN IP-range matching (`is_cdn_ip` inside `active_scan`) -/

/-- The Cloudflare CIDR blocks hard-coded in `active_scan.is_cdn_ip`:
`(a, b, c, d, prefix_len)` per entry. -/
def cloudflareRanges : List (Nat × Nat × Nat × Nat × Nat) :=
  [ (104, 16, 0, 0, 12)
  , (172, 64, 0, 0, 13)
  , (173, 245, 48, 0, 20)
  , (103, 21, 244, 0, 22)
  , (141, 101, 64, 0, 18)
  , (108, 162, 192, 0, 18)
  , (190, 93, 240, 0, 20)
  , (188, 114, 96, 0, 20)
  , (197, 234, 240, 0, 22)
  , (198, 41, 128, 0, 17)
  , (162, 158, 0, 0, 15)
  , (131, 0, 72, 0, 22) ]

/-- One range test of `is_cdn_ip`: mask `ip_int` and `base_int` with the
`/prefix_len` netmask and compare, exactly as the Python integer arithmetic
does. -/
def cdnRangeMatch (ipInt : Nat) (r : Nat × Nat × Nat × Nat × Nat) : Bool :=
  let (a, b, c, d, plen) := r
  let maskBits := 32 - plen
  let mask := (0xFFFFFFFF <<< maskBits) &&& 0xFFFFFFFF
  let baseInt := (a <<< 24) ||| (b <<< 16) ||| (c <<< 8) ||| d
  (ipInt &&& mask) == (baseInt &&& mask)

/-- `active_scan.is_cdn_ip`: parse a dotted-quad string and test it against
every Cloudflare range; any parse failure yields `false` (the Python code
catches `ValueError`/`IndexError` and falls through to `return False`). -/
def is_cdn_ip (ip : String) : Bool :=
  if ip = "" then false
  else
    let parts := splitDots ip
    if parts.length ≠ 4 then false
    else
      match parts.map strToNatQ with
      | [some p0, some p1, some p2, some p3] =>
        let ipInt := (p0 <<< 24) ||| (p1 <<< 16) ||| (p2 <<< 8) ||| p3
        cloudflareRanges.any (cdnRangeMatch ipInt)
      | _ => false

/-! ## nmap port-record emission (`active_scan`, service-detection loop) -/

/-- Attributes of the `<service>` element of an nmap `<port>` element;
each attribute may be absent. -/
structure SvcAttrs where
  name : Option String
  product : Option String
  version : Option String
  method : Option String
  deriving Repr, DecidableEq

/-- One `<port>` element of nmap's XML output, as read by `active_scan`:
the port id, protocol attribute, the `<state>` element's `state` attribute
(`none` when the element or attribute is missing) and the optional
`<service>` element. -/
structure PortObs where
  portid : Nat
  protocol : Option String
  state : Option String
  service : Option SvcAttrs
  deriving Repr, DecidableEq

/-- `service_name` as computed in `active_scan`: `'unknown'` when the
`<service>` element or its `name` attribute is missing. -/
def serviceName (o : PortObs) : String :=
  match o.service with
  | none => "unknown"
  | some s => s.name.getD "unknown"

/-- `version_info = f"{product} {service_version}".strip()` of `active_scan`. -/
def versionInfo (o : PortObs) : String :=
  match o.service with
  | none => trimStr ("" ++ " " ++ "")
  | some s => trimStr (s.product.getD "" ++ " " ++ s.version.getD "")

/-- `service_method` as computed in `active_scan` (empty when absent). -/
def serviceMethod (o : PortObs) : String :=
  match o.service with
  | none => ""
  | some s => s.method.getD ""

/-- The port state string after the Python defaulting
(`'unknown'` when the `<state>` element or attribute is missing). -/
def stateStr (o : PortObs) : String := o.state.getD "unknown"

/-- `is_web_port` of `active_scan`: the port number is 80, 443, 8080 or 8443. -/
def isWebPort (port : Nat) : Bool :=
  port == 80 || port == 443 || port == 8080 || port == 8443

/-- The emission decision of `active_scan`'s nmap loop for one port, given
the effective IP (`ip or target_ip`): skip states other than
`open`/`open|filtered`; for an `open|filtered` non-web port on a CDN IP,
skip when the service is unknown, the version info empty and the detection
method is the `table` guess; otherwise emit a service record. -/
def emitPort (effIp : String) (o : PortObs) : Bool :=
  let st := lowerStr (stateStr o)
  if st ≠ "open" ∧ st ≠ "open|filtered" then false
  else if st = "open|filtered" ∧ ¬ isWebPort o.portid ∧ is_cdn_ip effIp ∧
        serviceName o = "unknown" ∧ versionInfo o = "" ∧ serviceMethod o = "table"
    then false
  else true

/-- A service record as appended by `active_scan` (Python dict with keys
hostname/ip/port/protocol/name/version). -/
structure Service where
  hostname : String
  ip : String
  port : Nat
  protocol : String
  name : String
  version : String
  deriving Repr, DecidableEq

/-- The service record built by `active_scan` for an emitted port:
`protocol or 'tcp'` and `version_info or 'unknown'` model Python's
falsy-`or` on the empty string. -/
def mkService (host effIp : String) (o : PortObs) : Service :=
  { hostname := host
  , ip := effIp
  , port := o.portid
  , protocol := if o.protocol.getD "" = "" then "tcp" else o.protocol.getD ""
  , name := serviceName o
  , version := if versionInfo o = "" then "unknown" else versionInfo o }

/-- The service records `active_scan` appends for one host's nmap output. -/
def nmapHostServices (host effIp : String) (ports : List PortObs) : List Service :=
  (ports.filter (emitPort effIp)).map (mkService host effIp)

/-- The emission condition the code actually implements, worded as the
amended claim: state "open", or state "open|filtered" and not (a non-web
port on a CDN-range IP with unknown service name, empty version info, and
`table`-guessed detection method). -/
def amendedEmitPort (effIp : String) (o : PortObs) : Bool :=
  let st := lowerStr (stateStr o)
  st == "open" ||
    (st == "open|filtered" &&
      !(!(isWebPort o.portid) && is_cdn_ip effIp && serviceName o == "unknown" &&
        versionInfo o == "" && serviceMethod o == "table"))

/-! ## External tool invokers: outcomes and temp-file cleanup

`passive_scan` (amass) and `active_scan` (masscan, nmap) each create a
named temporary file, run the tool, and call `os.unlink` only inside the
branch guarded by `result.returncode == 0 and os.path.exists(tmp_path)`
(for nmap, additionally after `ET.parse` succeeded).  The exception
handlers (`FileNotFoundError`, `subprocess.TimeoutExpired`, generic
`Exception`) and the non-zero-exit branch fall through without unlinking. -/

/-- The distinguishable execution paths of one tool invocation. -/
inductive InvokerOutcome where
  /-- the tool exited 0, the output file exists and was parsed -/
  | success
  /-- `result.returncode != 0` -/
  | nonzeroExit
  /-- `FileNotFoundError`: the binary is not installed -/
  | toolMissing
  /-- `subprocess.TimeoutExpired` -/
  | timedOut
  /-- the output file existed but could not be parsed (nmap `ET.parse`) -/
  | parseFailure
  /-- any other caught exception -/
  | otherError
  deriving Repr, DecidableEq

/-- One parsed JSON line of amass output: the `name` field and the `ip`
fields of its `addresses` entries (possibly empty strings, which the Python
truthiness tests skip). -/
structure AmassEntry where
  name : String
  addresses : List String
  deriving Repr, DecidableEq

/-- The amass call in `passive_scan`: parsed entries are consumed and the
temp file unlinked only on the `returncode == 0` branch; every other path
returns without unlinking.  Second component: was the temp file deleted? -/
def amassInvoke (o : InvokerOutcome) (entries : List AmassEntry) :
    List AmassEntry × Bool :=
  match o with
  | .success => (entries, true)
  | _ => ([], false)

/-- The masscan call in `active_scan`: open ports are read and the temp
file unlinked only on the `returncode == 0` branch. -/
def masscanInvoke (o : InvokerOutcome) (ports : List Nat) : List Nat × Bool :=
  match o with
  | .success => (ports, true)
  | _ => ([], false)

/-- The nmap call in `active_scan`: the XML is parsed and the temp file
unlinked only when the tool exited 0 and parsing succeeded. -/
def nmapInvoke (o : InvokerOutcome) (ports : List PortObs) :
    List PortObs × Bool :=
  match o with
  | .success => (ports, true)
  | _ => ([], false)

/-! ## Lexicographic string sorting (Python `sorted` on `str`) -/

/-- Lexicographic `≤` on character lists by code point, structural. -/
def charsLe : List Char → List Char → Bool
  | [], _ => true
  | _ :: _, [] => false
  | a :: as, b :: bs =>
    if a.toNat = b.toNat then charsLe as bs else decide (a.toNat < b.toNat)

/-- Boolean lexicographic `≤` on strings (the order of Python `sorted`). -/
def strLeB (s t : String) : Bool := charsLe s.data t.data

/-- `strLeB` as a relation, for `List.Sorted`. -/
def strLeProp (s t : String) : Prop := strLeB s t = true

instance : DecidableRel strLeProp :=
  fun s t => inferInstanceAs (Decidable (strLeB s t = true))

/-- Python `sorted(list(set(...)))`: drop duplicates, sort ascending. -/
def sortedDedup (l : List String) : List String :=
  List.insertionSort strLeProp l.dedup

/-! ## Passive discovery stage (`passive_scan`)

The four sources are stubbed deterministically: the crt.sh response is the
list of (already newline-split) `name_value` lines or `none` on any
request/format failure; amass is an invoker outcome plus its parsed JSON
lines; HackerTarget is the list of response lines or `none`; the DNS
resolver maps a candidate name to its list of `A`-record strings (`[]`
models NXDOMAIN/no answer/timeout).  Each source's whole-method `except`
handler corresponds to the `none`/failure stub. -/

/-- Deterministic stubs for the passive sources. -/
structure PassiveStubs where
  crt : Option (List String)
  amass : InvokerOutcome
  amassEntries : List AmassEntry
  ht : Option (List String)
  dns : String → List String

/-- Result shape of `passive_scan`. -/
structure PassiveResult where
  domain : String
  subdomains : List String
  host_to_ip : List (String × String)
  deriving Repr, DecidableEq

/-- Python dict assignment `m[k] = v`: overwrite in place or append. -/
def assocSet : List (String × String) → String → String → List (String × String)
  | [], k, v => [(k, v)]
  | (k', v') :: rest, k, v =>
    if k' = k then (k, v) :: rest else (k', v') :: assocSet rest k v

/-- Python `m.get(k, d)`. -/
def assocGet (m : List (String × String)) (k d : String) : String :=
  match m with
  | [] => d
  | (k', v') :: rest => if k' = k then v' else assocGet rest k d

/-- crt.sh processing of one name line: strip, lowercase, drop a leading
`*.` wildcard, keep only names ending in `.domain` or equal to `domain`. -/
def crtProcessName (domain raw : String) : Option String :=
  let s := lowerStr (trimStr raw)
  let s := if prefixOfB ['*', '.'] s.data then (⟨s.data.drop 2⟩ : String) else s
  if strEndsWith s ("." ++ domain) || s = domain then some s else none

/-- The hostnames `passive_scan` adds from the crt.sh source. -/
def crtAdds (domain : String) (st : PassiveStubs) : List String :=
  match st.crt with
  | none => []
  | some lines => lines.filterMap (crtProcessName domain)

/-- The hostnames `passive_scan` adds from amass (`data['name'].lower()`
for every parsed line with a non-empty `name`; no domain filter). -/
def amassAdds (st : PassiveStubs) : List String :=
  ((amassInvoke st.amass st.amassEntries).1.filter (fun e => e.name ≠ "")).map
    (fun e => lowerStr e.name)

/-- The `host_to_ip` updates from amass: for each entry with a name, each
non-empty address ip overwrites `host_to_ip[data['name']]` (the key is the
raw, unlowered name, exactly as in the code). -/
def amassH2ip (m0 : List (String × String)) (st : PassiveStubs) :
    List (String × String) :=
  (amassInvoke st.amass st.amassEntries).1.foldl
    (fun m e =>
      if e.name = "" then m
      else e.addresses.foldl
        (fun m ip => if ip = "" then m else assocSet m e.name ip) m)
    m0

/-- HackerTarget processing of one `hostname,ip` line: require a comma and
a non-blank line, take the field before the first comma, strip, lowercase,
keep only names ending in `.domain` or equal to `domain`. -/
def htProcessLine (domain line : String) : Option String :=
  if line.data.contains ',' ∧ trimStr line ≠ "" then
    let sub := lowerStr (trimStr ⟨(splitOnChar ',' line.data).headD []⟩)
    if strEndsWith sub ("." ++ domain) || sub = domain then some sub else none
  else none

/-- The hostnames `passive_scan` adds from the HackerTarget source. -/
def htAdds (domain : String) (st : PassiveStubs) : List String :=
  match st.ht with
  | none => []
  | some lines => lines.filterMap (htProcessLine domain)

/-- The common-subdomain candidate list of the DNS brute-force source
(the code only probes `common_subs[:50]`). -/
def commonSubs : List String :=
  [ "www", "mail", "ftp", "localhost", "webmail", "smtp", "pop", "ns1", "webdisk", "ns2"
  , "cpanel", "whm", "autodiscover", "autoconfig", "m", "imap", "test", "ns", "blog", "pop3"
  , "dev", "www2", "admin", "forum", "news", "vpn", "ns3", "mail2", "new", "mysql", "old"
  , "lists", "support", "mobile", "mx", "static", "docs", "beta", "web2", "www1", "api"
  , "cdn", "stats", "dns1", "www3", "dns", "api2", "secure", "test2", "ns4", "vps"
  , "mx2", "chat", "wap", "svn", "media", "www4", "sms", "my", "svr", "dns2"
  , "www5", "id", "srv", "host", "biz", "sip", "online", "jabber", "db", "dns3"
  , "search", "staging", "server", "demo", "ipv6", "ad", "club", "tech", "gateway", "cdn2"
  , "assets", "graphql", "hls", "api1", "api3", "app", "apps", "auth", "backup", "cache"
  , "cdn1", "cdn3", "cloud", "dashboard", "download", "email", "files", "git", "help"
  , "images", "img", "login", "logs", "monitor", "portal", "proxy", "shop", "store", "upload" ]

/-- The hostnames `passive_scan` adds from the DNS brute force: each
candidate `sub.domain` that resolves to at least one record. -/
def dnsAdds (domain : String) (st : PassiveStubs) : List String :=
  (commonSubs.take 50).filterMap (fun sub =>
    let td := sub ++ "." ++ domain
    if st.dns td ≠ [] then some td else none)

/-- The `host_to_ip` updates from the DNS brute force: every answer record
overwrites the entry, so the last record wins. -/
def dnsH2ip (m0 : List (String × String)) (domain : String)
    (st : PassiveStubs) : List (String × String) :=
  (commonSubs.take 50).foldl
    (fun m sub =>
      let td := sub ++ "." ++ domain
      (st.dns td).foldl (fun m ip => assocSet m td ip) m)
    m0

/-- `passive_scan`: union the four sources' discoveries into a set, always
add the root domain, and return the sorted duplicate-free list plus the
accumulated `host_to_ip` map. -/
def passive_scan (domain : String) (st : PassiveStubs) : PassiveResult :=
  let collected :=
    crtAdds domain st ++ amassAdds st ++ htAdds domain st ++
      dnsAdds domain st ++ [domain]
  { domain := domain
  , subdomains := sortedDedup collected
  , host_to_ip := dnsH2ip (amassH2ip [] st) domain st }

/-! ## Active scan stage (`active_scan`): per-host loop and deadline

Per host, `active_scan` runs the (cached-availability) masscan check,
masscan itself, nmap, and possibly the socket fallback — all with their own
subprocess/socket timeouts — and appends that host's service records (the
nmap records are `nmapHostServices`).  The loop checks
`elapsed >= max_wait` before processing each host and again after it, and
returns the accumulated partial list at either check.  Each host is
modelled by the wall-clock seconds its tools consumed plus the service
records it contributed. -/

/-- One host's processing: elapsed tool seconds and contributed records. -/
structure HostWork where
  dur : Nat
  services : List Service

/-- The `for host in hosts` loop of `active_scan` with its two deadline
checks; returns the accumulated services and the elapsed seconds at
return. -/
def activeLoop (maxWait : Nat) : Nat → List Service → List HostWork →
    List Service × Nat
  | t, acc, [] => (acc, t)
  | t, acc, w :: rest =>
    if t ≥ maxWait then (acc, t)
    else
      let t2 := t + w.dur
      let acc2 := acc ++ w.services
      if t2 ≥ maxWait then (acc2, t2)
      else activeLoop maxWait t2 acc2 rest

/-- `active_scan`: empty host list returns immediately; otherwise run the
per-host loop under `max_wait = int(timeout)`. -/
def active_scan (hosts : List HostWork) (timeout : Nat) : List Service × Nat :=
  match hosts with
  | [] => ([], 0)
  | _ :: _ => activeLoop timeout 0 [] hosts

/-! ## Orchestrator (`orchestrate_scan`)

Stages run synchronously in one worker (`.apply()`), so the run is a
straight line: a deadline check before the passive stage, before the
active stage, after the active stage, and before the (removed) Nessus
vulnerability stage; each failing check returns a partial result carrying
`timed_out: True`, the elapsed seconds at the check, and a warning string.
The durations and outputs of the passive and active stages are stub
inputs; a `none` output models a stage that raised or was unsuccessful
(the orchestrator then keeps its defaults).  The natural-completion result
carries `elapsed_time` and `host_to_ip` but no `timed_out` and no
`warning` key; `Option` fields model key presence. -/

/-- The pipeline stages of `orchestrate_scan`. -/
inductive Stage where
  | passive
  | active
  | vuln
  | index
  deriving Repr, DecidableEq

/-- Arguments of `orchestrate_scan` relevant to control flow. -/
structure OrchArgs where
  scanId : String
  domain : String
  enablePassive : Bool
  enableActive : Bool
  enableVuln : Bool
  timeout : Nat

/-- Stubbed passive-stage output (`subdomains`, `host_to_ip`). -/
structure PassiveOut where
  subdomains : List String
  host_to_ip : List (String × String)

/-- Stubbed stage durations and outputs for one orchestration run. -/
structure OrchStubs where
  passiveDur : Nat
  passiveOut : Option PassiveOut
  activeDur : Nat
  activeOut : Option (List Service)

/-- The dict returned by `orchestrate_scan`.  `timedOut`, `warning`,
`hostToIp` and `toolsUsed` are `Option` because the corresponding Python
keys are present only on some return paths (the vulnerability list is
always empty: the Nessus integration is removed). -/
structure OrchResult where
  scanId : String
  domain : String
  subdomains : List String
  services : List Service
  vulnerabilities : List String
  assetsFound : Nat
  servicesFound : Nat
  vulnerabilitiesFound : Nat
  timedOut : Option Bool
  elapsedTime : Nat
  warning : Option String
  hostToIp : Option (List (String × String))
  toolsUsed : Option (Bool × Bool × Bool)
  deriving Repr, DecidableEq

/-- An orchestration run's observable trace: the returned dict, the stages
that actually started, and — when the active stage started — the elapsed
seconds at its start and the timeout passed to `active_scan`. -/
structure OrchTrace where
  result : OrchResult
  stages : List Stage
  activeGrant : Option (Nat × Nat)
  deriving Repr, DecidableEq

/-- A partial result returned at a failing deadline check. -/
def orchTimeoutResult (a : OrchArgs) (subs : List String)
    (svcs : List Service) (assets : Nat) (elapsed : Nat) (warn : String) :
    OrchResult :=
  { scanId := a.scanId
  , domain := a.domain
  , subdomains := subs
  , services := svcs
  , vulnerabilities := []
  , assetsFound := assets
  , servicesFound := svcs.length
  , vulnerabilitiesFound := 0
  , timedOut := some true
  , elapsedTime := elapsed
  , warning := some warn
  , hostToIp := none
  , toolsUsed := none }

/-- `assets_found` of the natural-completion result: the number of indexed
documents — one per distinct service hostname, or placeholder documents
for the first ten subdomains when no service was found. -/
def orchAssetsFound (subs : List String) (svcs : List Service) : Nat :=
  if svcs = [] then (subs.take 10).length
  else ((svcs.map Service.hostname).dedup).length

/-- Steps 3 and 4 of `orchestrate_scan`: the deadline check before the
(removed) vulnerability stage, then grouping and indexing and the
natural-completion result. -/
def orchTail (a : OrchArgs) (_st : OrchStubs) (subs : List String)
    (h2ip : List (String × String)) (svcs : List Service) (t : Nat)
    (stages : List Stage) (grant : Option (Nat × Nat)) : OrchTrace :=
  let maxWait := a.timeout
  if a.enableVuln ∧ subs ≠ [] ∧ t ≥ maxWait then
    { result := orchTimeoutResult a subs svcs subs.length t
        ("Scan timed out after " ++ toString maxWait ++
          "s. Vulnerability scan not started.")
    , stages := stages
    , activeGrant := grant }
  else
    { result :=
      { scanId := a.scanId
      , domain := a.domain
      , subdomains := subs
      , services := svcs
      , vulnerabilities := []
      , assetsFound := orchAssetsFound subs svcs
      , servicesFound := svcs.length
      , vulnerabilitiesFound := 0
      , timedOut := none
      , elapsedTime := t
      , warning := none
      , hostToIp := some h2ip
      , toolsUsed := some (a.enablePassive, a.enableActive, a.enableVuln) }
    , stages := stages ++ [.index]
    , activeGrant := grant }


/-- `orchestrate_scan`, straight-line with explicit integer time. -/
def orchestrate_scan (a : OrchArgs) (st : OrchStubs) : OrchTrace :=
  let maxWait := a.timeout
  -- Step 1: passive reconnaissance (deadline check, then the stage)
  if a.enablePassive ∧ 0 ≥ maxWait then
    { result := orchTimeoutResult a [a.domain] [] 0 0
        ("Scan timed out after " ++ toString maxWait ++
          "s. Partial results returned.")
    , stages := []
    , activeGrant := none }
  else
    let pOut := st.passiveOut.getD ⟨[a.domain], []⟩
    let subs := if a.enablePassive then pOut.subdomains else [a.domain]
    let h2ip := if a.enablePassive then pOut.host_to_ip else []
    let t1 := if a.enablePassive then st.passiveDur else 0
    let stages1 : List Stage := if a.enablePassive then [.passive] else []
    -- Step 2: active scanning
    if a.enableActive ∧ subs ≠ [] then
      if t1 ≥ maxWait then
        { result := orchTimeoutResult a subs [] subs.length t1
            ("Scan timed out after " ++ toString maxWait ++
              "s. Passive scan completed, active scan not started.")
        , stages := stages1
        , activeGrant := none }
      else
        let granted := max 60 (maxWait - t1 - 60)
        let t2 := t1 + st.activeDur
        let svcs := st.activeOut.getD []
        let stages2 := stages1 ++ [.active]
        if t2 ≥ maxWait then
          { result := orchTimeoutResult a subs svcs subs.length t2
              ("Scan timed out after " ++ toString maxWait ++
                "s. Active scan completed, vulnerability scan not started.")
          , stages := stages2
          , activeGrant := some (t1, granted) }
        else
          orchTail a st subs h2ip svcs t2 stages2 (some (t1, granted))
    else
      orchTail a st subs h2ip [] t1 stages1 none

/-! ## SpiderFoot job-status poller (`spiderfoot_scan`)

After the scan is created, the task polls `/scanstatus` and
`/scanexportjsonmulti` every 5 seconds.  On each poll the exported entity
list wholesale replaces the accumulator.  When the deadline is reached at
the top of the loop, a `/stopscan` request is issued and the loop exits;
a 10-second grace loop then re-polls every 4 seconds (every other
2-second sleep), replacing the accumulator only when strictly more
entities are returned, after which a second `/stopscan`, a 5-second wait
and one final poll happen before the timed-out result (`timeout: True`)
is returned.  Poll responses are stubbed by scripts: `none` models a
failed request or an unparsable response. -/

/-- One entity row of a `/scanexportjsonmulti` response. -/
structure SFItem where
  event_type : String
  data : String
  moduleName : String
  deriving Repr, DecidableEq

/-- An entity as accumulated by the task (`type`/`value`/`module`). -/
structure Entity where
  type : String
  value : String
  moduleName : String
  deriving Repr, DecidableEq

/-- Main-loop conversion: skip `ROOT` events, keep everything else. -/
def mainEntities (items : List SFItem) : List Entity :=
  (items.filter (fun i => i.event_type ≠ "ROOT")).map
    (fun i => ⟨i.event_type, i.data, i.moduleName⟩)

/-- Grace-period/final-poll conversion: skip `ROOT` events and rows with
an empty `event_type` or empty `data`. -/
def graceEntities (items : List SFItem) : List Entity :=
  (items.filter (fun i =>
      i.event_type ≠ "ROOT" ∧ i.event_type ≠ "" ∧ i.data ≠ "")).map
    (fun i => ⟨i.event_type, i.data, i.moduleName⟩)

/-- The statuses the main loop treats as terminal. -/
def terminalStatus (s : String) : Bool :=
  s == "FINISHED" || s == "ERROR-FAILED" || s == "ABORTED"

/-- The statuses the grace loop treats as terminal. -/
def graceTerminalStatus (s : String) : Bool :=
  s == "FINISHED" || s == "ABORTED" || s == "ABORT-REQUESTED"

/-- One main-loop iteration's stubbed responses. -/
structure PollStep where
  status : Option String
  results : Option (List SFItem)

/-- One grace-loop iteration's stubbed responses. -/
structure GraceStep where
  results : Option (List SFItem)
  status : Option String

/-- The externally visible HTTP requests of the poller. -/
inductive SFReq where
  | statusQ
  | exportQ
  | stopQ
  deriving Repr, DecidableEq

/-- State at exit of the main polling loop. -/
structure MainLoopOut where
  t : Nat
  entities : Option (List Entity)
  finished : Bool
  log : List SFReq
  ranOut : Bool
  deriving Repr, DecidableEq

/-- The main polling loop: deadline check (with the best-effort `/stopscan`
on expiry) at the top, then a status poll and a results poll; a terminal
status breaks; otherwise sleep the full 5-second interval, or only the
remaining seconds (and break) when less than an interval is left.
`ranOut` marks the model artifact of running out of scripted responses. -/
def sfMainLoop (maxWait : Nat) : Nat → Option (List Entity) → List SFReq →
    List PollStep → MainLoopOut
  | t, ents, log, script =>
    if t ≥ maxWait then
      { t := t, entities := ents, finished := false
      , log := log ++ [.stopQ], ranOut := false }
    else
      match script with
      | [] =>
        { t := t, entities := ents, finished := false, log := log
        , ranOut := true }
      | s :: rest =>
        let log1 := log ++ [.statusQ, .exportQ]
        let fin := match s.status with
          | some st => terminalStatus st
          | none => false
        let ents1 := match s.results with
          | some items => some (mainEntities items)
          | none => ents
        if fin then
          { t := t, entities := ents1, finished := true, log := log1
          , ranOut := false }
        else
          let remaining := maxWait - t
          if remaining < 5 then
            { t := t + remaining, entities := ents1, finished := false
            , log := log1, ranOut := false }
          else sfMainLoop maxWait (t + 5) ents1 log1 rest

/-- The grace loop (`k` counts iterations; results are polled on even
counts, the status is checked every iteration, a terminal status breaks).
Returns the accumulator, the tracked `entities_count`, and the log. -/
def sfGraceLoop : Nat → Option (List Entity) → Nat → List SFReq →
    List GraceStep → Option (List Entity) × Nat × List SFReq
  | _, ents, cnt, log, [] => (ents, cnt, log)
  | k, ents, cnt, log, gs :: rest =>
    let (ents1, cnt1, log1) :=
      if k % 2 = 0 then
        match gs.results with
        | some items =>
          let cur := graceEntities items
          if cur.length > cnt then (some cur, cur.length, log ++ [SFReq.exportQ])
          else (ents, cnt, log ++ [SFReq.exportQ])
        | none => (ents, cnt, log ++ [SFReq.exportQ])
      else (ents, cnt, log)
    let log2 := log1 ++ [SFReq.statusQ]
    let finNow := match gs.status with
      | some st => graceTerminalStatus st
      | none => false
    if finNow then (ents1, cnt1, log2)
    else sfGraceLoop (k + 1) ents1 cnt1 log2 rest

/-- The timed-out result (`partial: True`, `timeout: True`, the warning
string, and the accumulated entities). -/
structure SFResult where
  entities : List Entity
  dataPoints : Nat
  partialFlag : Option Bool
  timeout : Option Bool
  warning : Option String
  deriving Repr, DecidableEq

/-- A poller run's observable outcome: the result, the request log, and
whether the run took the deadline-expiry path. -/
structure SFPollOut where
  result : SFResult
  log : List SFReq
  exitTimeout : Bool
  ranOut : Bool
  deriving Repr, DecidableEq

/-- The polling phase of `spiderfoot_scan`: the main loop, then — when the
deadline expired without a terminal status — the 10-second grace loop
(five 2-second iterations), a second `/stopscan`, and one final poll whose
result again replaces the accumulator only when strictly larger.  The
finished path's post-processing (final export, CSV, processing) is outside
the polling protocol and represented by its entity accumulator. -/
def spiderfootPoll (maxWait : Nat) (script : List PollStep)
    (gsteps : List GraceStep) (finalResp : Option (List SFItem)) : SFPollOut :=
  let m := sfMainLoop maxWait 0 none [] script
  if m.t ≥ maxWait ∧ ¬ m.finished then
    let cnt0 := (m.entities.getD []).length
    let (ents1, cnt1, log1) :=
      sfGraceLoop 0 m.entities cnt0 m.log (gsteps.take 5)
    let log2 := log1 ++ [SFReq.stopQ, SFReq.exportQ]
    let ents2 := match finalResp with
      | some items =>
        let cur := graceEntities items
        if cur.length > cnt1 then some cur else ents1
      | none => ents1
    { result :=
      { entities := ents2.getD []
      , dataPoints := (ents2.getD []).length
      , partialFlag := some true
      , timeout := some true
      , warning := some ("Scan timed out after " ++ toString maxWait ++
          "s. Showing partial results with " ++
          toString (ents2.getD []).length ++ " entities.") }
    , log := log2
    , exitTimeout := true
    , ranOut := m.ranOut }
  else
    { result :=
      { entities := m.entities.getD []
      , dataPoints := (m.entities.getD []).length
      , partialFlag := none
      , timeout := none
      , warning := none }
    , log := m.log
    , exitTimeout := false
    , ranOut := m.ranOut }

/-! ## Claims -/

/-- Counterexample instance for claim 1. -/
def claim1Port : PortObs :=
  { portid := 8080, protocol := some "tcp", state := some "open|filtered", service := none }

/-- C1 counterexample: on a CDN-range IP (104.16.0.1 is in 104.16.0.0/12),
port 8080 with state `open|filtered` and no service element IS emitted by
`active_scan` — 8080 is a web port, so the CDN filter never applies,
contradicting the claim that no record is emitted there. -/
theorem claim1_counterexample :
    is_cdn_ip "104.16.0.1" = true ∧
    serviceName claim1Port = "unknown" ∧
    emitPort "104.16.0.1" claim1Port = true := by
  refine ⟨by decide, by decide, by decide⟩

/-- C1 (amended): a service record is emitted for a scanned port iff its
state is `open`, or its state is `open|filtered` and it is not a non-web
port on a CDN-range IP with unknown service name, empty version info, and
`table`-guessed detection method.  (For a CDN IP with port 8080 — a web
port — a record is emitted in both the `open` and `open|filtered` states
even with no service name.) -/
theorem claim1_theorem :
    ∀ (effIp : String) (o : PortObs), emitPort effIp o = amendedEmitPort effIp o := by
  intro effIp o
  unfold emitPort amendedEmitPort
  by_cases h1 : lowerStr (stateStr o) = "open"
  · have h2 : lowerStr (stateStr o) ≠ "open|filtered" := by
      rw [h1]; decide
    simp [h1, h2]
  · by_cases h2 : lowerStr (stateStr o) = "open|filtered"
    · by_cases h3 : isWebPort o.portid <;>
        by_cases h4 : is_cdn_ip effIp <;>
          by_cases h5 : serviceName o = "unknown" <;>
            by_cases h6 : versionInfo o = "" <;>
              by_cases h7 : serviceMethod o = "table" <;>
                simp [h1, h2, h3, h4, h5, h6, h7]
    · simp [h1, h2]

/-- C5 counterexample: when amass exits non-zero, the temp file written
for its output is not deleted before `passive_scan`'s invoker returns. -/
theorem claim5_counterexample :
    (amassInvoke .nonzeroExit []).2 = false := by decide

/-- C5 (amended): each tool invoker deletes its temp file exactly on the
success path (tool exited zero, output file present and parsed); every
failure path — non-zero exit, missing binary, timeout, parse failure,
other exception — returns with the file left behind. -/
theorem claim5_theorem :
    ∀ (o : InvokerOutcome) (es : List AmassEntry) (ps : List Nat)
      (pos : List PortObs),
      ((amassInvoke o es).2 = true ↔ o = .success) ∧
      ((masscanInvoke o ps).2 = true ↔ o = .success) ∧
      ((nmapInvoke o pos).2 = true ↔ o = .success) := by
  intro o es ps pos
  cases o <;> simp [amassInvoke, masscanInvoke, nmapInvoke]

/-- The per-host loop of `active_scan` never runs more than one host past
the deadline: starting strictly inside the budget, with every host's tool
time at most `B`, it exits at an elapsed time at most `maxWait + B`. -/
theorem activeLoop_bound (maxWait B : Nat) :
    ∀ (ws : List HostWork) (t : Nat) (acc : List Service),
      t < maxWait → (∀ w ∈ ws, w.dur ≤ B) →
      (activeLoop maxWait t acc ws).2 ≤ maxWait + B := by
  intro ws
  induction ws with
  | nil =>
    intro t acc ht _
    simp [activeLoop]
    omega
  | cons w rest ih =>
    intro t acc ht hb
    unfold activeLoop
    have hw : w.dur ≤ B := hb w (List.mem_cons_self w rest)
    by_cases h1 : t ≥ maxWait
    · omega
    · simp only [if_neg h1]
      by_cases h2 : t + w.dur ≥ maxWait
      · simp only [if_pos h2]
        omega
      · simp only [if_neg h2]
        exact ih (t + w.dur) (acc ++ w.services) (by omega)
          (fun w' hw' => hb w' (List.mem_cons_of_mem w hw'))

/-- C9: `active_scan` returns within its timeout plus at most one host's
worth of (capped) tool time: the deadline is consulted before and after
each host, so if every host's tool time is at most `B`, the elapsed time
at return is at most `timeout + B`. -/
theorem claim9_theorem (hosts : List HostWork) (timeout B : Nat)
    (hB : ∀ w ∈ hosts, w.dur ≤ B) :
    (active_scan hosts timeout).2 ≤ timeout + B := by
  cases hosts with
  | nil => simp [active_scan]
  | cons w rest =>
    unfold active_scan
    by_cases ht : 0 < timeout
    · exact activeLoop_bound timeout B (w :: rest) 0 [] ht hB
    · have h0 : timeout = 0 := by omega
      subst h0
      simp [activeLoop]

/-- Witness for C9 at a concrete input: one host whose tools take 5
seconds against a 3-second stage budget still returns by second 8. -/
theorem claim9_witness :
    (active_scan [⟨5, []⟩] 3).2 ≤ 3 + 5 :=
  claim9_theorem [⟨5, []⟩] 3 5 (by simp)

/-- C2: whenever `orchestrate_scan` returns `timed_out: True`, the
reported elapsed time has reached the overall timeout — every such return
comes from a `check_timeout` that observed `elapsed >= max_wait`. -/
theorem claim2_theorem (a : OrchArgs) (st : OrchStubs)
    (h : (orchestrate_scan a st).result.timedOut = some true) :
    a.timeout ≤ (orchestrate_scan a st).result.elapsedTime := by
  unfold orchestrate_scan orchTail at *
  dsimp only at h ⊢
  split_ifs at h ⊢ <;> simp_all [orchTimeoutResult]

/-- Witness for C2: a 60-second budget with a 70-second passive stage
returns `timed_out: True` with elapsed time at least 60. -/
theorem claim2_witness :
    (60 : Nat) ≤ (orchestrate_scan ⟨"scan-w2", "example.com", true, true, true, 60⟩
      ⟨70, some ⟨["example.com"], []⟩, 0, some []⟩).result.elapsedTime :=
  claim2_theorem ⟨"scan-w2", "example.com", true, true, true, 60⟩
    ⟨70, some ⟨["example.com"], []⟩, 0, some []⟩ (by decide)

/-- C3: once a deadline check fails (the result carries
`timed_out: True`), the orchestrator returns immediately: neither the
vulnerability stage nor the indexing stage is ever started, and the
synthesized result carries only what prior stages produced (its
vulnerability list is empty). -/
theorem claim3_theorem (a : OrchArgs) (st : OrchStubs)
    (h : (orchestrate_scan a st).result.timedOut = some true) :
    Stage.vuln ∉ (orchestrate_scan a st).stages ∧
    Stage.index ∉ (orchestrate_scan a st).stages ∧
    (orchestrate_scan a st).result.vulnerabilities = [] := by
  unfold orchestrate_scan orchTail at *
  dsimp only at h ⊢
  split_ifs at h ⊢ <;>
    by_cases hp : a.enablePassive <;> simp_all [orchTimeoutResult]

/-- Witness for C3 at a concrete timed-out run. -/
theorem claim3_witness :
    Stage.vuln ∉ (orchestrate_scan ⟨"scan-w3", "example.com", true, true, true, 60⟩
      ⟨70, some ⟨["example.com"], []⟩, 0, some []⟩).stages ∧
    Stage.index ∉ (orchestrate_scan ⟨"scan-w3", "example.com", true, true, true, 60⟩
      ⟨70, some ⟨["example.com"], []⟩, 0, some []⟩).stages ∧
    (orchestrate_scan ⟨"scan-w3", "example.com", true, true, true, 60⟩
      ⟨70, some ⟨["example.com"], []⟩, 0, some []⟩).result.vulnerabilities = [] :=
  claim3_theorem ⟨"scan-w3", "example.com", true, true, true, 60⟩
    ⟨70, some ⟨["example.com"], []⟩, 0, some []⟩ (by decide)

/-- The concrete C6 scenario: `timeout=60`, passive stage takes 70s. -/
def claim6Args : OrchArgs := ⟨"scan-6", "example.com", true, true, true, 60⟩

/-- Stubs for the C6 scenario. -/
def claim6Stubs : OrchStubs :=
  ⟨70, some ⟨["example.com", "www.example.com"], [("www.example.com", "203.0.113.7")]⟩,
    0, some []⟩

/-- C6 counterexample: in the claimed scenario the run is timed out, but
its warning is the literal "Scan timed out after 60s. Passive scan
completed, active scan not started." — it states that the passive stage
COMPLETED (the orchestrator runs it synchronously to completion), not
that it did not complete. -/
theorem claim6_counterexample :
    (orchestrate_scan claim6Args claim6Stubs).result.timedOut = some true ∧
    (orchestrate_scan claim6Args claim6Stubs).result.warning =
      some "Scan timed out after 60s. Passive scan completed, active scan not started." := by
  refine ⟨by decide, by decide⟩

/-- C6 (amended): with `timeout=60` and a 70-second passive stage, the
result has `timed_out: True`, empty services and vulnerabilities, elapsed
time 70, and a warning stating that the passive stage completed and the
active stage was not started. -/
theorem claim6_theorem :
    (orchestrate_scan claim6Args claim6Stubs).result.timedOut = some true ∧
    (orchestrate_scan claim6Args claim6Stubs).result.services = [] ∧
    (orchestrate_scan claim6Args claim6Stubs).result.vulnerabilities = [] ∧
    (orchestrate_scan claim6Args claim6Stubs).result.elapsedTime = 70 ∧
    (orchestrate_scan claim6Args claim6Stubs).result.warning =
      some "Scan timed out after 60s. Passive scan completed, active scan not started." := by
  refine ⟨by decide, by decide, by decide, by decide, by decide⟩

/-- The concrete C8 scenario: a run that completes naturally. -/
def claim8Args : OrchArgs := ⟨"scan-8", "example.org", true, true, true, 3600⟩

/-- Stubs for the C8 scenario: fast stages, no timeout. -/
def claim8Stubs : OrchStubs := ⟨1, some ⟨["example.org"], []⟩, 1, some []⟩

/-- C8 counterexample: the natural-completion result of `orchestrate_scan`
carries no `timed_out` key at all, so not every returned result contains
the `timed_out` flag. -/
theorem claim8_counterexample :
    (orchestrate_scan claim8Args claim8Stubs).result.timedOut = none := by decide

/-- C8 (amended): every `orchestrate_scan` result carries an elapsed-time
value (the `elapsedTime` field is total), and it carries the `timed_out`
flag (always `True`, with a warning) exactly on the deadline-expiry
partial-result paths; the natural-completion result carries neither
`timed_out` nor `warning`. -/
theorem claim8_theorem (a : OrchArgs) (st : OrchStubs) :
    ((orchestrate_scan a st).result.timedOut = some true ∧
      ((orchestrate_scan a st).result.warning).isSome = true) ∨
    ((orchestrate_scan a st).result.timedOut = none ∧
      (orchestrate_scan a st).result.warning = none) := by
  unfold orchestrate_scan orchTail
  dsimp only
  split_ifs <;> simp [orchTimeoutResult]

/-- C10: whenever the active stage is started, the timeout handed to
`active_scan` is `max(60, overall_timeout - elapsed - 60)`; in particular
whenever fewer than 120 seconds of budget remain at that point, the active
stage is granted a flat 60 seconds (which can exceed the remaining
budget, letting the stage run past the orchestration deadline). -/
theorem claim10_theorem (a : OrchArgs) (st : OrchStubs) (e g : Nat)
    (h : (orchestrate_scan a st).activeGrant = some (e, g)) :
    g = max 60 (a.timeout - e - 60) ∧ (a.timeout - e < 120 → g = 60) := by
  unfold orchestrate_scan orchTail at h
  dsimp only at h
  split_ifs at h <;> simp at h <;>
    (obtain ⟨he, hg⟩ := h
     subst he
     subst hg
     refine ⟨by simp, fun h120 => ?_⟩
     exact Nat.max_eq_left (by omega))

/-- Witness for C10: overall timeout 60, active stage starting at elapsed
30 (only 30 seconds of budget left, fewer than 120): the stage is granted
the floor of 60 seconds, exceeding the remaining budget. -/
theorem claim10_witness :
    (orchestrate_scan ⟨"scan-10", "example.net", true, true, true, 60⟩
      ⟨30, some ⟨["example.net"], []⟩, 100, some []⟩).activeGrant = some (30, 60) ∧
    (60 : Nat) = max 60 (60 - 30 - 60) ∧
    60 - 30 < 120 ∧
    30 + 60 > 60 :=
  ⟨by decide,
   ( claim10_theorem ⟨"scan-10", "example.net", true, true, true, 60⟩
      ⟨30, some ⟨["example.net"], []⟩, 100, some []⟩ 30 60 (by decide)).1,
   by decide, by decide⟩

/-- Totality of the lexicographic order on character lists. -/
theorem charsLe_total : ∀ (a b : List Char), charsLe a b = true ∨ charsLe b a = true := by
  intro a
  induction a with
  | nil => intro b; left; simp [charsLe]
  | cons x as ih =>
    intro b
    cases b with
    | nil => right; simp [charsLe]
    | cons y bs =>
      by_cases hxy : x.toNat = y.toNat
      · rcases ih bs with h | h
        · left; simp [charsLe, hxy, h]
        · right; simp [charsLe, hxy.symm, h]
      · rcases Nat.lt_or_ge x.toNat y.toNat with hlt | hge
        · left; simp [charsLe, hxy, hlt]
        · right
          have hyx : y.toNat ≠ x.toNat := fun e => hxy e.symm
          simp [charsLe, hyx]
          omega

/-- Transitivity of the lexicographic order on character lists. -/
theorem charsLe_trans :
    ∀ (a b c : List Char), charsLe a b = true → charsLe b c = true →
      charsLe a c = true := by
  intro a
  induction a with
  | nil => intro b c _ _; simp [charsLe]
  | cons x as ih =>
    intro b c hab hbc
    cases b with
    | nil => simp [charsLe] at hab
    | cons y bs =>
      cases c with
      | nil => simp [charsLe] at hbc
      | cons z cs =>
        by_cases hxy : x.toNat = y.toNat <;> by_cases hyz : y.toNat = z.toNat
        · have hxz : x.toNat = z.toNat := hxy.trans hyz
          simp [charsLe, hxy] at hab
          simp [charsLe, hyz] at hbc
          simp [charsLe, hxz]
          exact ih bs cs hab hbc
        · simp [charsLe, hyz] at hbc
          have hxz : x.toNat ≠ z.toNat := by omega
          simp [charsLe, hxz]
          omega
        · simp [charsLe, hxy] at hab
          have hxz : x.toNat ≠ z.toNat := by omega
          simp [charsLe, hxz]
          omega
        · simp [charsLe, hxy] at hab
          simp [charsLe, hyz] at hbc
          have hxz : x.toNat ≠ z.toNat := by omega
          simp [charsLe, hxz]
          omega

instance : IsTotal String strLeProp :=
  ⟨fun s t => charsLe_total s.data t.data⟩

instance : IsTrans String strLeProp :=
  ⟨fun s t u => charsLe_trans s.data t.data u.data⟩

/-- Stubs for the C4 example scenario: source A (crt.sh) returns
`www.example.com` and `api.example.com`, source B (HackerTarget) returns
`api.example.com` and `mail.example.com`; amass fails, DNS resolves
nothing. -/
def claim4Stubs : PassiveStubs :=
  { crt := some ["www.example.com", "api.example.com"]
  , amass := .nonzeroExit
  , amassEntries := []
  , ht := some ["api.example.com,198.51.100.4", "mail.example.com,198.51.100.5"]
  , dns := fun _ => [] }

/-- C4: for every domain and deterministic source stubbing, the
`subdomains` field of `passive_scan` is sorted and duplicate-free, always
contains the root domain, and a hostname is in it iff some source
discovered it or it is the root domain; on the example scenario the
result is exactly the four expected names. -/
theorem claim4_theorem :
    (∀ (domain : String) (st : PassiveStubs),
      List.Sorted strLeProp (passive_scan domain st).subdomains ∧
      (passive_scan domain st).subdomains.Nodup ∧
      domain ∈ (passive_scan domain st).subdomains ∧
      (∀ s, s ∈ (passive_scan domain st).subdomains ↔
        s ∈ crtAdds domain st ∨ s ∈ amassAdds st ∨ s ∈ htAdds domain st ∨
          s ∈ dnsAdds domain st ∨ s = domain)) ∧
    (passive_scan "example.com" claim4Stubs).subdomains =
      ["api.example.com", "example.com", "mail.example.com", "www.example.com"] := by
  constructor
  · intro domain st
    have hperm := List.perm_insertionSort strLeProp
      (crtAdds domain st ++ amassAdds st ++ htAdds domain st ++
        dnsAdds domain st ++ [domain]).dedup
    refine ⟨List.sorted_insertionSort strLeProp _, ?_, ?_, ?_⟩
    · exact hperm.symm.nodup (List.nodup_dedup _)
    · show domain ∈ sortedDedup _
      unfold sortedDedup
      rw [hperm.mem_iff, List.mem_dedup]
      simp
    · intro s
      show s ∈ sortedDedup _ ↔ _
      unfold sortedDedup
      rw [hperm.mem_iff, List.mem_dedup]
      simp [or_assoc]
  · decide

/-- The grace loop never decreases the tracked entity count, and the
count always equals the length of the accumulated entity list. -/
theorem sfGraceLoop_mono :
    ∀ (gs : List GraceStep) (k : Nat) (ents : Option (List Entity))
      (cnt : Nat) (log : List SFReq),
      cnt = (ents.getD []).length →
      cnt ≤ (sfGraceLoop k ents cnt log gs).2.1 ∧
      (sfGraceLoop k ents cnt log gs).2.1 =
        (((sfGraceLoop k ents cnt log gs).1).getD []).length := by
  intro gs
  induction gs with
  | nil =>
    intro k ents cnt log h
    simp [sfGraceLoop, h]
  | cons g rest ih =>
    intro k ents cnt log h
    unfold sfGraceLoop
    dsimp only
    by_cases hk : k % 2 = 0
    · simp only [hk, if_true]
      cases hres : g.results with
      | none =>
        split_ifs with hfin
        · simp [h]
        · exact ih (k + 1) ents cnt _ h
      | some items =>
        by_cases hlen : (graceEntities items).length > cnt
        · simp only [if_pos hlen]
          split_ifs with hfin
          · exact ⟨Nat.le_of_lt hlen, by simp⟩
          · have := ih (k + 1) (some (graceEntities items))
              (graceEntities items).length
              (log ++ [SFReq.exportQ] ++ [SFReq.statusQ]) (by simp)
            exact ⟨Nat.le_trans (Nat.le_of_lt hlen) this.1, this.2⟩
        · simp only [if_neg hlen]
          split_ifs with hfin
          · simp [h]
          · exact ih (k + 1) ents cnt _ h
    · simp only [hk, if_false]
      split_ifs with hfin
      · simp [h]
      · exact ih (k + 1) ents cnt _ h

/-- C7 (amended): whenever the deadline elapses before the remote scan
reaches a terminal status, the poller issues a best-effort `/stopscan`
request, keeps polling during the fixed grace period, and returns a
result marked `timeout: True` / `partial: True` whose entity set is at
least as large as what had been accumulated when the deadline fired —
main-loop polls replace the accumulator outright, while grace-period and
final polls replace it only when they observe strictly more entities. -/
theorem claim7_theorem (maxWait : Nat) (script : List PollStep)
    (gsteps : List GraceStep) (finalResp : Option (List SFItem))
    (h : (spiderfootPoll maxWait script gsteps finalResp).exitTimeout = true) :
    SFReq.stopQ ∈ (spiderfootPoll maxWait script gsteps finalResp).log ∧
    (spiderfootPoll maxWait script gsteps finalResp).result.timeout = some true ∧
    (spiderfootPoll maxWait script gsteps finalResp).result.partialFlag = some true ∧
    ((sfMainLoop maxWait 0 none [] script).entities.getD []).length ≤
      (spiderfootPoll maxWait script gsteps finalResp).result.dataPoints := by
  unfold spiderfootPoll at h ⊢
  dsimp only at h ⊢
  split_ifs at h ⊢ with hc
  · obtain ⟨hmono, hlen⟩ := sfGraceLoop_mono (gsteps.take 5) 0
      (sfMainLoop maxWait 0 none [] script).entities
      (((sfMainLoop maxWait 0 none [] script).entities.getD []).length)
      (sfMainLoop maxWait 0 none [] script).log rfl
    rcases hG : sfGraceLoop 0 (sfMainLoop maxWait 0 none [] script).entities
      (((sfMainLoop maxWait 0 none [] script).entities.getD []).length)
      (sfMainLoop maxWait 0 none [] script).log (gsteps.take 5) with ⟨ents1, cnt1, log1⟩
    rw [hG] at hmono hlen
    dsimp only at hmono hlen
    simp only [hG]
    refine ⟨by simp, ?_, ?_, ?_⟩
    · trivial
    · trivial
    · cases finalResp with
      | none => simpa [hlen.symm] using hmono
      | some items =>
        by_cases hgt : (graceEntities items).length > cnt1
        · simp only [if_pos hgt, Option.getD_some]
          omega
        · simp only [if_neg hgt]
          simpa [hlen.symm] using hmono

/-- Entity rows for the C7 scenario. -/
def claim7Item1 : SFItem := ⟨"IP_ADDRESS", "203.0.113.9", "sfp_dnsresolve"⟩

/-- A second entity row for the C7 scenario. -/
def claim7Item2 : SFItem := ⟨"DOMAIN_NAME", "a.example.com", "sfp_dnsresolve"⟩

/-- A main-loop script for the C7 scenario: one poll observing two
entities while the scan is still running, against a 5-second deadline. -/
def claim7Script : List PollStep :=
  [⟨some "RUNNING", some [claim7Item1, claim7Item2]⟩]

/-- Grace-period responses for the C7 scenario: the first grace poll
observes only one entity (fewer than accumulated). -/
def claim7Grace : List GraceStep :=
  [⟨some [claim7Item1], some "RUNNING"⟩, ⟨none, none⟩, ⟨none, none⟩,
    ⟨none, none⟩, ⟨none, none⟩]

/-- C7 counterexample: the deadline elapses with the scan still running,
the final poll (the last observation) returns exactly one entity, yet the
returned entity set is the earlier two-entity accumulator — grace-period
and final polls do not replace the accumulator (they only do so when
strictly more entities are observed), so the result is not the
last-observed entity set. -/
theorem claim7_counterexample :
    (spiderfootPoll 5 claim7Script claim7Grace (some [claim7Item1])).exitTimeout = true ∧
    (spiderfootPoll 5 claim7Script claim7Grace (some [claim7Item1])).result.timeout = some true ∧
    graceEntities [claim7Item1] = [⟨"IP_ADDRESS", "203.0.113.9", "sfp_dnsresolve"⟩] ∧
    (spiderfootPoll 5 claim7Script claim7Grace (some [claim7Item1])).result.entities =
      [⟨"IP_ADDRESS", "203.0.113.9", "sfp_dnsresolve"⟩,
        ⟨"DOMAIN_NAME", "a.example.com", "sfp_dnsresolve"⟩] ∧
    (spiderfootPoll 5 claim7Script claim7Grace (some [claim7Item1])).result.entities ≠
      graceEntities [claim7Item1] := by
  refine ⟨by decide, by decide, by decide, by decide, by decide⟩

/-- Witness for C7 at a concrete timed-out run. -/
theorem claim7_witness :
    SFReq.stopQ ∈ (spiderfootPoll 5 claim7Script claim7Grace none).log ∧
    (spiderfootPoll 5 claim7Script claim7Grace none).result.timeout = some true ∧
    (spiderfootPoll 5 claim7Script claim7Grace none).result.partialFlag = some true ∧
    ((sfMainLoop 5 0 none [] claim7Script).entities.getD []).length ≤
      (spiderfootPoll 5 claim7Script claim7Grace none).result.dataPoints :=
  claim7_theorem 5 claim7Script claim7Grace none (by decide)

end BrandMonitor
